import Mathlib

/-!
Shallow embedding of the vcf-validator core (EBI `vcf-validator`):
the data model (`Source`, `MetaEntry`, `Record`, `ParsingState`),
the meta-entry constructor checks of `src/vcf/meta_entry.cpp`, and the
semantic checks of `src/vcf/validate_optional_policy.cpp`.

C++ exceptions are modelled by an explicit result `ParsingState × Option Err`:
a check returns the (possibly updated) state together with the first thrown
diagnostic, if any; mutations performed before the throw persist, as they do
in the C++ (the state is mutated in place and the exception propagates).
-/

namespace VcfValidator

/-! ## Data model (`inc/vcf/file_structure.hpp`) -/

inductive Version where
  | v41 | v42 | v43
deriving DecidableEq

inductive RecordType where
  | SNV | MNV | INDEL | STRUCTURAL | NO_VARIATION | OTHER
deriving DecidableEq

/-- The discriminated value of a meta entry: `boost::variant` over absent,
plain string, and key-value map. -/
inductive MetaValue where
  | NoValue : MetaValue
  | PlainValue : String → MetaValue
  | KeyValue : List (String × String) → MetaValue
deriving DecidableEq

/-- A `##key=value` header line.  The C++ `MetaEntry` also holds a shared
pointer to its `Source`; the fields the checks read (the version, the tables)
are passed explicitly to the check functions instead. -/
structure MetaEntry where
  line : Nat
  id : String
  value : MetaValue
deriving DecidableEq

/-- `std::map<std::string,std::string>::find`, first match on the key
(keys of a `std::map` are unique, so first match is the match). -/
def mapFind (kv : List (String × String)) (k : String) : Option String :=
  (kv.find? (fun p => p.1 == k)).map Prod.snd

/-- `value[k]` read access: the entry when present, the default-constructed
empty string otherwise (as `std::map::operator[]` yields for a fresh key). -/
def mapGet (kv : List (String × String)) (k : String) : String :=
  (mapFind kv k).getD ""

/-- `value.count(k) != 0`. -/
def hasKey (kv : List (String × String)) (k : String) : Bool :=
  (mapFind kv k).isSome

/-- Modelled from the spec: `Ploidy` is "a default integer plus per-contig
overrides"; the class itself is not part of the excerpt. -/
structure Ploidy where
  ploidy : Nat
  contig_ploidies : List (String × Nat)
deriving DecidableEq

/-- Modelled from the spec: "Lookup returns `overrides[contig]` if present
else `default`". -/
def Ploidy.get_ploidy (p : Ploidy) (contig : String) : Nat :=
  ((p.contig_ploidies.find? (fun q => q.1 == contig)).map Prod.snd).getD p.ploidy

/-- The per-file description shared by every record: version, ploidy
configuration and the meta-entry multimap (a list of key/entry pairs). -/
structure Source where
  version : Version
  ploidy : Ploidy
  meta_entries : List (String × MetaEntry)
deriving DecidableEq

/-- One body line.  Only the fields the optional policy reads are kept. -/
structure Record where
  chromosome : String
  position : Nat
  ids : List String
  reference_allele : String
  alternate_alleles : List String
  types : List RecordType
  filters : List String
  info : List (String × String)
  format : List String
  samples : List String
deriving DecidableEq

/-- Per-file accumulator: line counter, source, and the memoization set of
`(category, id)` pairs found well defined.  The C++ class is not part of the
excerpt; the set is modelled from the spec (§3, §4.3). -/
structure ParsingState where
  n_lines : Nat
  source : Source
  well_defined_meta : List (String × String)
deriving DecidableEq

/-- Modelled from the spec: `ParsingState::is_well_defined_meta(category, id)`
answers whether the pair was recorded as well defined. -/
def is_well_defined_meta (s : ParsingState) (category id : String) : Bool :=
  s.well_defined_meta.contains (category, id)

/-- Modelled from the spec: `ParsingState::add_well_defined_meta(category, id)`
inserts the pair into the memoization set; nothing is ever removed. -/
def add_well_defined_meta (s : ParsingState) (category id : String) : ParsingState :=
  { s with well_defined_meta := (category, id) :: s.well_defined_meta }

/-! ## Error model (`inc/vcf/error.hpp`) — the diagnostics the embedded
checks can throw. -/

inductive Err where
  | MetaSectionError (line : Nat) (message : String)
  | PositionBodyError (line : Nat) (message : String)
  | IdBodyError (line : Nat) (message : String)
  | ReferenceAlleleBodyError (line : Nat) (message : String)
  | SamplesFieldBodyError (line : Nat) (message : String) (field : String) (expected : Int)
  | NoMetaDefinitionError (line : Nat) (message : String) (column : String) (value : String)
deriving DecidableEq

/-! ## String utilities -/

/-- Modelled from the spec: `util::string_split(s, delims, out)` (not part of
the excerpt) cuts `s` at every occurrence of any character of `delims`;
an empty input yields no tokens and a trailing delimiter does not append a
trailing empty token, mirroring the scanning loop of the C++ helper. -/
def string_split : List Char → List Char → List (List Char)
  | [], _ => []
  | c :: cs, delims =>
    if c ∈ delims then
      [] :: string_split cs delims
    else
      match string_split cs delims with
      | [] => [[c]]
      | t :: ts => (c :: t) :: ts

/-- `s[0]` on a `std::string`: its first character, or the null character for
the empty string (`operator[]` at `size()` returns a reference to `'\x00'`). -/
def str_head (s : String) : Char :=
  s.toList.headD '\x00'

/-! ## Meta-entry validation (`src/vcf/meta_entry.cpp`, `MetaEntryVisitor`)

The predefined-tag tables (`format_v41_v42`, `format_v43`, `info_v41_v42`,
`info_v43`) live in a header that is not part of the excerpt; the check
functions therefore take them as arguments, exactly as
`MetaEntryVisitor::check_predefined_tag` receives its `tags` map.  A table
maps an ID to the pair (expected Type, expected Number); per the spec a cell
`"."` means "do not constrain". -/

/-- `MetaEntryVisitor::check_predefined_tag`. -/
def check_predefined_tag (line : Nat) (tag_field key_field : String)
    (value : List (String × String))
    (tags : List (String × (String × String))) : Option Err :=
  match tags.find? (fun t => t.1 == mapGet value "ID") with
  | none => none
  | some t =>
    let key_value := if key_field == "Type" then t.2.1 else t.2.2
    if key_value != "." && key_value != mapGet value key_field then
      some (Err.MetaSectionError line
        (tag_field ++ " " ++ mapGet value "ID" ++ " metadata " ++ key_field
          ++ " is not " ++ key_value))
    else none

/-- The prefix computation inside `MetaEntryVisitor::check_alt`:
`pos = ID.find(':')`, then the whole string when no colon occurs, otherwise
`substr(0, pos)` — equivalently the characters before the first colon. -/
def alt_id_pfx (value : List (String × String)) : String :=
  String.mk ((mapGet value "ID").toList.takeWhile (fun c => c ≠ ':'))

/-- `MetaEntryVisitor::check_alt`. -/
def check_alt (line : Nat) (value : List (String × String)) : Option Err :=
  if !hasKey value "ID" then
    some (Err.MetaSectionError line "ALT metadata does not contain a field called \x27ID\x27")
  else if !hasKey value "Description" then
    some (Err.MetaSectionError line "ALT metadata does not contain a field called \x27Description\x27")
  else
    let pfx := alt_id_pfx value
    if pfx != "DEL" && pfx != "INS" && pfx != "DUP" && pfx != "INV" && pfx != "CNV" then
      some (Err.MetaSectionError line "ALT metadata ID does not begin with DEL/INS/DUP/INV/CNV")
    else none

/-- `MetaEntryVisitor::check_contig`. -/
def check_contig (line : Nat) (value : List (String × String)) : Option Err :=
  if !hasKey value "ID" then
    some (Err.MetaSectionError line "contig metadata does not contain a field called \x27ID\x27")
  else none

/-- `MetaEntryVisitor::check_filter`. -/
def check_filter (line : Nat) (value : List (String × String)) : Option Err :=
  if !hasKey value "ID" then
    some (Err.MetaSectionError line "FILTER metadata does not contain a field called \x27ID\x27")
  else if !hasKey value "Description" then
    some (Err.MetaSectionError line "FILTER metadata does not contain a field called \x27Description\x27")
  else none

/-- `MetaEntryVisitor::check_sample`. -/
def check_sample (line : Nat) (value : List (String × String)) : Option Err :=
  if !hasKey value "ID" then
    some (Err.MetaSectionError line "SAMPLE metadata does not contain a field called \x27ID\x27")
  else none

/-- `MetaEntryVisitor::check_format`.  `fmt_v41_v42` and `fmt_v43` are the
two predefined FORMAT tables; the version selects which one is consulted. -/
def check_format (line : Nat) (version : Version)
    (fmt_v41_v42 fmt_v43 : List (String × (String × String)))
    (value : List (String × String)) : Option Err :=
  if !hasKey value "ID" then
    some (Err.MetaSectionError line "FORMAT metadata does not contain a field called \x27ID\x27")
  else if !hasKey value "Number" then
    some (Err.MetaSectionError line "FORMAT metadata does not contain a field called \x27Number\x27")
  else if !hasKey value "Type" then
    some (Err.MetaSectionError line "FORMAT metadata does not contain a field called \x27Type\x27")
  else if !hasKey value "Description" then
    some (Err.MetaSectionError line "FORMAT metadata does not contain a field called \x27Description\x27")
  else
    let number_field := mapGet value "Number"
    if !(number_field.toList.all Char.isDigit) && number_field != "A"
        && number_field != "R" && number_field != "G" && number_field != "." then
      some (Err.MetaSectionError line "FORMAT metadata Number is not a number, A, R, G or dot")
    else
      let type_field := mapGet value "Type"
      if type_field != "Integer" && type_field != "Float"
          && type_field != "Character" && type_field != "String" then
        some (Err.MetaSectionError line "FORMAT metadata Type is not a Integer, Float, Character or String")
      else
        let tags := if version == Version.v41 || version == Version.v42
          then fmt_v41_v42 else fmt_v43
        match check_predefined_tag line "FORMAT" "Type" value tags with
        | some e => some e
        | none => check_predefined_tag line "FORMAT" "Number" value tags

/-- `MetaEntryVisitor::check_info`. -/
def check_info (line : Nat) (version : Version)
    (info_v41_v42 info_v43 : List (String × (String × String)))
    (value : List (String × String)) : Option Err :=
  if !hasKey value "ID" then
    some (Err.MetaSectionError line "INFO metadata does not contain a field called \x27ID\x27")
  else if !hasKey value "Number" then
    some (Err.MetaSectionError line "INFO metadata does not contain a field called \x27Number\x27")
  else if !hasKey value "Type" then
    some (Err.MetaSectionError line "INFO metadata does not contain a field called \x27Type\x27")
  else if !hasKey value "Description" then
    some (Err.MetaSectionError line "INFO metadata does not contain a field called \x27Description\x27")
  else
    let number_field := mapGet value "Number"
    if !(number_field.toList.all Char.isDigit) && number_field != "A"
        && number_field != "R" && number_field != "G" && number_field != "." then
      some (Err.MetaSectionError line "INFO metadata Number is not a number, A, R, G or dot")
    else
      let type_field := mapGet value "Type"
      if type_field != "Integer" && type_field != "Float" && type_field != "Flag"
          && type_field != "Character" && type_field != "String" then
        some (Err.MetaSectionError line "INFO metadata Type is not a Integer, Float, Flag, Character or String")
      else
        let tags := if version == Version.v41 || version == Version.v42
          then info_v41_v42 else info_v43
        match check_predefined_tag line "INFO" "Type" value tags with
        | some e => some e
        | none => check_predefined_tag line "INFO" "Number" value tags

/-- `MetaEntryVisitor::operator()` — the dispatch of `MetaEntry::check_value`
on the structure and the id. -/
def check_value (line : Nat) (id : String) (version : Version)
    (fmt_v41_v42 fmt_v43 info_v41_v42 info_v43 : List (String × (String × String))) :
    MetaValue → Option Err
  | MetaValue.NoValue => none
  | MetaValue.PlainValue s =>
    if s.toList.contains '\n' then
      some (Err.MetaSectionError line "Metadata value contains a line break")
    else none
  | MetaValue.KeyValue kv =>
    if id == "ALT" then check_alt line kv
    else if id == "assembly" then none
    else if id == "contig" then check_contig line kv
    else if id == "FILTER" then check_filter line kv
    else if id == "FORMAT" then check_format line version fmt_v41_v42 fmt_v43 kv
    else if id == "INFO" then check_info line version info_v41_v42 info_v43 kv
    else if id == "PEDIGREE" then none
    else if id == "pedigreeDB" then none
    else if id == "SAMPLE" then check_sample line kv
    else none

/-- The fallible `MetaEntry` constructor: runs `check_value` and yields the
entry when no diagnostic is thrown. -/
def MetaEntry.construct (line : Nat) (id : String) (version : Version)
    (fmt_v41_v42 fmt_v43 info_v41_v42 info_v43 : List (String × (String × String)))
    (value : MetaValue) : Except Err MetaEntry :=
  match check_value line id version fmt_v41_v42 fmt_v43 info_v41_v42 info_v43 value with
  | some e => Except.error e
  | none => Except.ok { line := line, id := id, value := value }

/-! ## Optional (semantic) policy (`src/vcf/validate_optional_policy.cpp`)

Each check takes the state and the record and returns the state (with any
memoization updates that happened before a throw) and the thrown diagnostic,
if any. -/

/-- `ValidateOptionalPolicy::optional_check_meta_section`: requires a
`"reference"` entry in the meta section.  It reads the state only. -/
def optional_check_meta_section (s : ParsingState) : Option Err :=
  if (s.source.meta_entries.find? (fun p => p.1 == "reference")).isNone then
    some (Err.MetaSectionError s.n_lines
      "A valid \x27reference\x27 entry is not listed in the meta section")
  else none

/-- The sample loop of `check_body_entry_ploidy`: `ploidy` starts at `0`,
`i` at `1`; a sample seen while `ploidy > 0` must show `ploidy` alleles,
otherwise the first sample with a nonzero allele count sets `ploidy`. -/
def ploidy_sample_loop (line : Nat) : Nat → Nat → List String → Except Err Nat
  | ploidy, _, [] => Except.ok ploidy
  | ploidy, i, sample :: rest =>
    let subfields := string_split sample.toList [':']
    let alleles := string_split (subfields.headD []) ['|', '/']
    if ploidy > 0 then
      if alleles.length ≠ ploidy then
        Except.error (Err.SamplesFieldBodyError line
          ("Sample #" ++ toString i ++ " has " ++ toString alleles.length
            ++ " allele(s), but " ++ toString ploidy ++ " were found in others")
          "GT" (Int.ofNat ploidy))
      else ploidy_sample_loop line ploidy (i + 1) rest
    else ploidy_sample_loop line alleles.length (i + 1) rest

/-- `ValidateOptionalPolicy::check_body_entry_ploidy`. -/
def check_body_entry_ploidy (s : ParsingState) (r : Record) :
    ParsingState × Option Err :=
  if r.format.head? = some "GT" then
    match ploidy_sample_loop s.n_lines 0 1 r.samples with
    | Except.error e => (s, some e)
    | Except.ok ploidy =>
      let provided_ploidy := s.source.ploidy.get_ploidy r.chromosome
      if provided_ploidy ≠ ploidy then
        (s, some (Err.SamplesFieldBodyError s.n_lines
          ("The specified ploidy for contig \"" ++ r.chromosome ++ "\" was "
            ++ toString provided_ploidy
            ++ ", which doesn\x27t match the genotypes, which show ploidy "
            ++ toString ploidy)
          "GT" (Int.ofNat provided_ploidy)))
      else (s, none)
  else (s, none)

/-- `ValidateOptionalPolicy::check_body_entry_position_zero`. -/
def check_body_entry_position_zero (s : ParsingState) (r : Record) :
    ParsingState × Option Err :=
  if r.position = 0 then
    (s, some (Err.PositionBodyError s.n_lines
      "Position zero should only be used to reference a telomere"))
  else (s, none)

/-- `ValidateOptionalPolicy::check_body_entry_id_commas`: throws at the first
id containing a comma. -/
def check_body_entry_id_commas (s : ParsingState) (r : Record) :
    ParsingState × Option Err :=
  match r.ids.find? (fun id => id.toList.contains ',') with
  | some _ => (s, some (Err.IdBodyError s.n_lines
      "Comma found in the ID column; if used as separator, please replace it with semi-colon"))
  | none => (s, none)

/-- `ValidateOptionalPolicy::check_body_entry_reference_alternate_matching`:
throws at the first INDEL alternate whose first character differs from the
reference allele's.  The loop walks `alternate_alleles[i]` with `types[i]`;
`Record` construction aligns the two sequences, here paired with `zip`. -/
def check_body_entry_reference_alternate_matching (s : ParsingState) (r : Record) :
    ParsingState × Option Err :=
  match (r.alternate_alleles.zip r.types).find?
      (fun p => p.2 == RecordType.INDEL && str_head p.1 != str_head r.reference_allele) with
  | some _ => (s, some (Err.ReferenceAlleleBodyError s.n_lines
      "Reference and alternate alleles do not share the first nucleotide"))
  | none => (s, none)

/-- `equal_range` on the meta-entry multimap: the entries stored under a key. -/
def meta_range (s : ParsingState) (key : String) : List MetaEntry :=
  (s.source.meta_entries.filter (fun p => p.1 == key)).map Prod.snd

/-- Modelled from the spec: `is_record_subfield_in_header(value, begin, end)`
(declared in the policy header, not part of the excerpt) scans a slice of the
meta-entry multimap for an entry whose KeyValue map has `ID` equal to the
sought value. -/
def is_record_subfield_in_header (field_value : String)
    (range : List MetaEntry) : Bool :=
  range.any (fun m =>
    match m.value with
    | MetaValue.KeyValue kv => mapGet kv "ID" == field_value
    | _ => false)

/-- The shared shape of the five cross-reference loops of the policy
(contig / ALT / FILTER / INFO / FORMAT): for each id, skipped ids are passed
over, ids already recorded well defined are passed over, ids found in the
header slice are recorded well defined, and the first id that is neither
throws a `NoMetaDefinitionError` (leaving the memoization additions made so
far in place).  `category` is the memoization key, `column` the structured
field name of the diagnostic, `msg` its message. -/
def check_meta_loop (category column : String) (skip : String → Bool)
    (msg : String → String) (range : List MetaEntry) :
    ParsingState → List String → ParsingState × Option Err
  | s, [] => (s, none)
  | s, id :: rest =>
    if skip id then
      check_meta_loop category column skip msg range s rest
    else if is_well_defined_meta s category id then
      check_meta_loop category column skip msg range s rest
    else if is_record_subfield_in_header id range then
      check_meta_loop category column skip msg range (add_well_defined_meta s category id) rest
    else
      (s, some (Err.NoMetaDefinitionError s.n_lines (msg id) column id))

/-- `ValidateOptionalPolicy::check_contig_meta` — the single-id instance of
the loop, for the record's chromosome. -/
def check_contig_meta (s : ParsingState) (r : Record) : ParsingState × Option Err :=
  check_meta_loop "contig" "CHROM" (fun _ => false)
    (fun c => "Chromosome/contig \x27" ++ c ++ "\x27 is not described in a \x27contig\x27 meta description")
    (meta_range s "contig") s [r.chromosome]

/-- The character class of the symbolic-alternate regex `<([a-zA-Z0-9:_]+)>`. -/
def alt_id_char (c : Char) : Bool :=
  ('a' ≤ c && c ≤ 'z') || ('A' ≤ c && c ≤ 'Z') || ('0' ≤ c && c ≤ '9')
    || c == ':' || c == '_'

/-- A complete match of `boost::regex_match` against `<([a-zA-Z0-9:_]+)>`:
the whole string is an opening bracket, a nonempty run of class characters,
and a closing bracket; the captured group is returned. -/
def sq_bracket_full_match (alt : String) : Option String :=
  match alt.toList with
  | '<' :: rest =>
    match rest.reverse with
    | '>' :: rev_inner =>
      let inner := rev_inner.reverse
      if inner.isEmpty then none
      else if inner.all alt_id_char then some (String.mk inner)
      else none
    | _ => none
  | _ => none

/-- The per-alternate guard of `check_alternate_allele_meta`:
`alternate[0] == '<' && regex_match(alternate, <([a-zA-Z0-9:_]+)>)`,
yielding the captured id on success. -/
def alt_symbolic_id (alternate : String) : Option String :=
  if str_head alternate == '<' then sq_bracket_full_match alternate else none

/-- `ValidateOptionalPolicy::check_alternate_allele_meta`.  The per-element
regex test does not read the state, so the loop over the alternates is the
meta loop over the ids extracted from the matching alternates, in order. -/
def check_alternate_allele_meta (s : ParsingState) (r : Record) :
    ParsingState × Option Err :=
  check_meta_loop "ALT" "ALT" (fun _ => false)
    (fun alt_id => "Alternate \x27<" ++ alt_id ++ ">\x27 is not listed in a valid meta-data ALT entry")
    (meta_range s "ALT") s (r.alternate_alleles.filterMap alt_symbolic_id)

/-- `ValidateOptionalPolicy::check_filter_meta`: `PASS` and `.` are skipped. -/
def check_filter_meta (s : ParsingState) (r : Record) : ParsingState × Option Err :=
  check_meta_loop "FILTER" "FILTER" (fun f => f == "PASS" || f == ".")
    (fun f => "Filter \x27" ++ f ++ "\x27 is not listed in a valid meta-data FILTER entry")
    (meta_range s "FILTER") s r.filters

/-- `ValidateOptionalPolicy::check_info_meta`: the key `.` is skipped. -/
def check_info_meta (s : ParsingState) (r : Record) : ParsingState × Option Err :=
  check_meta_loop "INFO" "INFO" (fun k => k == ".")
    (fun k => "Info \x27" ++ k ++ "\x27 is not listed in a valid meta-data INFO entry")
    (meta_range s "INFO") s (r.info.map Prod.fst)

/-- `ValidateOptionalPolicy::check_format_meta`. -/
def check_format_meta (s : ParsingState) (r : Record) : ParsingState × Option Err :=
  check_meta_loop "FORMAT" "FORMAT" (fun _ => false)
    (fun fm => "Format \x27" ++ fm ++ "\x27 is not listed in a valid meta-data FORMAT entry")
    (meta_range s "FORMAT") s r.format

/-- `ValidateOptionalPolicy::optional_check_body_entry`: the nine per-record
checks, called in sequence; a thrown diagnostic propagates immediately (there
is no per-check handler inside the function), carrying along the state as
already mutated. -/
def optional_check_body_entry (s : ParsingState) (r : Record) :
    ParsingState × Option Err :=
  match check_body_entry_ploidy s r with
  | (s, some e) => (s, some e)
  | (s, none) =>
  match check_body_entry_position_zero s r with
  | (s, some e) => (s, some e)
  | (s, none) =>
  match check_body_entry_id_commas s r with
  | (s, some e) => (s, some e)
  | (s, none) =>
  match check_body_entry_reference_alternate_matching s r with
  | (s, some e) => (s, some e)
  | (s, none) =>
  match check_contig_meta s r with
  | (s, some e) => (s, some e)
  | (s, none) =>
  match check_alternate_allele_meta s r with
  | (s, some e) => (s, some e)
  | (s, none) =>
  match check_filter_meta s r with
  | (s, some e) => (s, some e)
  | (s, none) =>
  match check_info_meta s r with
  | (s, some e) => (s, some e)
  | (s, none) => check_format_meta s r

/-- A runner for a list of checks: each is applied to the state left by its
predecessor, and the first thrown diagnostic stops the sequence. -/
def run_checks : List (ParsingState → Record → ParsingState × Option Err) →
    ParsingState → Record → ParsingState × Option Err
  | [], s, _ => (s, none)
  | c :: cs, s, r =>
    match c s r with
    | (s1, none) => run_checks cs s1 r
    | (s1, some e) => (s1, some e)

/-- The per-record checks of the policy, in the order
`optional_check_body_entry` lists them. -/
def body_entry_checks : List (ParsingState → Record → ParsingState × Option Err) :=
  [check_body_entry_ploidy,
   check_body_entry_position_zero,
   check_body_entry_id_commas,
   check_body_entry_reference_alternate_matching,
   check_contig_meta,
   check_alternate_allele_meta,
   check_filter_meta,
   check_info_meta,
   check_format_meta]

/-- Modelled from the spec: the driver invokes the policy once per record,
catches each thrown diagnostic, forwards it to the report sink, and continues
with the next record (spec §4.5, §7, §9); the collected diagnostics are
returned in emission order. -/
def run_optional_policy : ParsingState → List Record → ParsingState × List Err
  | s, [] => (s, [])
  | s, r :: rest =>
    match optional_check_body_entry s r with
    | (s1, none) => run_optional_policy s1 rest
    | (s1, some e) =>
      let (s2, es) := run_optional_policy s1 rest
      (s2, e :: es)

/-- Modelled from the spec: the `Record` constructor applies no check to
`position` beyond its unsigned type — "`0` is allowed through the
constructor" (spec §4.5); the constructor itself is not part of the excerpt. -/
def record_construct_position_check (_position : Nat) : Option Err :=
  none

/-- The five cross-reference categories of the policy, each with the
structured column name its `NoMetaDefinitionError` carries. -/
def meta_categories : List (String × String) :=
  [("contig", "CHROM"), ("ALT", "ALT"), ("FILTER", "FILTER"),
   ("INFO", "INFO"), ("FORMAT", "FORMAT")]

/-! ## Spec-side definitions and concrete fixtures used by the theorems -/

/-- A check is safe for a memoized pair when it keeps the pair in the set and
never throws the pair's `NoMetaDefinitionError`. -/
def check_safe (category column id : String)
    (c : ParsingState → Record → ParsingState × Option Err) : Prop :=
  ∀ s r, (category, id) ∈ s.well_defined_meta →
    (category, id) ∈ (c s r).1.well_defined_meta ∧
    ∀ n m, (c s r).2 ≠ some (Err.NoMetaDefinitionError n m column id)

/-- The allele count the ploidy check derives from one sample: subfield 0
(split on `:`), split on `|` or `/`. -/
def genotype_allele_count (sample : String) : Nat :=
  (string_split ((string_split sample.toList [':']).headD []) ['|', '/']).length

def w8_state : ParsingState :=
  { n_lines := 3,
    source := { version := Version.v41, ploidy := { ploidy := 2, contig_ploidies := [] },
                meta_entries := [] },
    well_defined_meta := [] }

def w8_record : Record :=
  { chromosome := "chr1", position := 0, ids := [], reference_allele := "A",
    alternate_alleles := ["T"], types := [RecordType.SNV], filters := [], info := [],
    format := [], samples := [] }

def w3_state : ParsingState :=
  { n_lines := 5,
    source := { version := Version.v41, ploidy := { ploidy := 2, contig_ploidies := [] },
                meta_entries := [("contig", ⟨1, "contig", MetaValue.KeyValue [("ID", "chr1")]⟩)] },
    well_defined_meta := [] }

def w9_state : ParsingState :=
  { n_lines := 4,
    source := { version := Version.v41, ploidy := { ploidy := 2, contig_ploidies := [] },
                meta_entries := [] },
    well_defined_meta := [] }

def w9_record : Record :=
  { chromosome := "chr1", position := 100, ids := [], reference_allele := "A",
    alternate_alleles := ["T"], types := [RecordType.SNV], filters := [], info := [],
    format := ["GT"], samples := [] }

def w10_state : ParsingState :=
  { n_lines := 6,
    source := { version := Version.v41, ploidy := { ploidy := 2, contig_ploidies := [] },
                meta_entries := [] },
    well_defined_meta := [] }

def w10_record : Record :=
  { chromosome := "chr1", position := 100, ids := [], reference_allele := "A",
    alternate_alleles := ["T", "<DEL"], types := [RecordType.SNV, RecordType.OTHER],
    filters := [], info := [], format := [], samples := [] }

def w6_state : ParsingState :=
  { n_lines := 9,
    source := { version := Version.v41, ploidy := { ploidy := 2, contig_ploidies := [] },
                meta_entries := [("contig", ⟨1, "contig", MetaValue.KeyValue [("ID", "chr1")]⟩)] },
    well_defined_meta := [("FILTER", "q10"), ("contig", "chr1")] }

def w6_record : Record :=
  { chromosome := "chr1", position := 100, ids := [], reference_allele := "A",
    alternate_alleles := ["T"], types := [RecordType.SNV], filters := ["q10"],
    info := [], format := [], samples := [] }

def cex1_state : ParsingState :=
  { n_lines := 1,
    source := { version := Version.v41, ploidy := { ploidy := 2, contig_ploidies := [] },
                meta_entries := [] },
    well_defined_meta := [] }

def cex1_record : Record :=
  { chromosome := "chr1", position := 0, ids := ["a,b"], reference_allele := "A",
    alternate_alleles := ["T"], types := [RecordType.SNV], filters := [], info := [],
    format := [], samples := [] }

def cex2_state : ParsingState :=
  { n_lines := 1,
    source := { version := Version.v41, ploidy := { ploidy := 2, contig_ploidies := [] },
                meta_entries := [("contig", ⟨1, "contig", MetaValue.KeyValue [("ID", "chr1")]⟩)] },
    well_defined_meta := [] }

def cex2_record : Record :=
  { chromosome := "chr1", position := 100, ids := [], reference_allele := "A",
    alternate_alleles := ["T"], types := [RecordType.SNV], filters := ["q10"],
    info := [], format := [], samples := [] }

def w5_state : ParsingState :=
  { n_lines := 7,
    source := { version := Version.v41, ploidy := { ploidy := 2, contig_ploidies := [] },
                meta_entries := [] },
    well_defined_meta := [] }

def w5_record : Record :=
  { chromosome := "chr1", position := 100, ids := [], reference_allele := "A",
    alternate_alleles := ["T"], types := [RecordType.SNV], filters := [], info := [],
    format := ["GT"], samples := ["0|1", "0|1|1"] }

/-- The version dispatch of `check_format` and `check_info`: the v4.1/v4.2
table when the source's version is v4.1 or v4.2, the v4.3 table otherwise. -/
def predefined_format_tags (version : Version)
    (fmt_v41_v42 fmt_v43 : List (String × (String × String))) :
    List (String × (String × String)) :=
  if version == Version.v41 || version == Version.v42 then fmt_v41_v42 else fmt_v43

def cex4_value : List (String × String) :=
  [("ID", "GT"), ("Number", "2"), ("Type", "String"), ("Description", "Genotype")]

def w4_value : List (String × String) :=
  [("ID", "GT"), ("Number", "1"), ("Type", "String"), ("Description", "Genotype")]

def w4info_value : List (String × String) :=
  [("ID", "AA"), ("Number", "1"), ("Type", "String"), ("Description", "Ancestral allele")]

/-! ## Helper lemmas -/

theorem is_well_defined_meta_iff (s : ParsingState) (category id : String) :
    is_well_defined_meta s category id = true ↔ (category, id) ∈ s.well_defined_meta := by
  simp [is_well_defined_meta, List.elem_iff]

theorem check_meta_loop_state (category column : String) (skip : String → Bool)
    (msg : String → String) (range : List MetaEntry) (ids : List String) (s : ParsingState) :
    s.well_defined_meta ⊆
        (check_meta_loop category column skip msg range s ids).1.well_defined_meta ∧
      (check_meta_loop category column skip msg range s ids).1.n_lines = s.n_lines ∧
      (check_meta_loop category column skip msg range s ids).1.source = s.source := by
  induction ids generalizing s with
  | nil => simp [check_meta_loop]
  | cons id rest ih =>
    by_cases h1 : skip id = true
    · simpa [check_meta_loop, h1] using ih s
    · by_cases h2 : is_well_defined_meta s category id = true
      · simpa [check_meta_loop, h1, h2] using ih s
      · by_cases h3 : is_record_subfield_in_header id range = true
        · have h4 := ih (add_well_defined_meta s category id)
          simp only [check_meta_loop, h1, h2, h3, if_true, if_false, Bool.false_eq_true]
          refine ⟨fun p hp => h4.1 ?_, h4.2.1, h4.2.2⟩
          exact List.mem_cons_of_mem _ hp
        · simp [check_meta_loop, h1, h2, h3]

theorem check_meta_loop_error (category column : String) (skip : String → Bool)
    (msg : String → String) (range : List MetaEntry) (ids : List String)
    (s s1 : ParsingState) (n : Nat) (m c v : String)
    (h : check_meta_loop category column skip msg range s ids =
      (s1, some (Err.NoMetaDefinitionError n m c v))) :
    c = column ∧ m = msg v ∧ n = s.n_lines ∧
      is_record_subfield_in_header v range = false ∧
      is_well_defined_meta s category v = false ∧
      check_meta_loop category column skip msg range s1 ids =
        (s1, some (Err.NoMetaDefinitionError n m c v)) := by
  induction ids generalizing s with
  | nil => simp [check_meta_loop] at h
  | cons id rest ih =>
    by_cases h1 : skip id = true
    · rw [check_meta_loop, if_pos h1] at h
      have h5 := ih s h
      refine ⟨h5.1, h5.2.1, h5.2.2.1, h5.2.2.2.1, h5.2.2.2.2.1, ?_⟩
      rw [check_meta_loop, if_pos h1]
      exact h5.2.2.2.2.2
    · by_cases h2 : is_well_defined_meta s category id = true
      · rw [check_meta_loop, if_neg h1, if_pos h2] at h
        have h5 := ih s h
        refine ⟨h5.1, h5.2.1, h5.2.2.1, h5.2.2.2.1, h5.2.2.2.2.1, ?_⟩
        rw [check_meta_loop, if_neg h1, if_pos ?_]
        · exact h5.2.2.2.2.2
        · have hmem := (is_well_defined_meta_iff s category id).mp h2
          have hsub := (check_meta_loop_state category column skip msg range rest s).1
          rw [h] at hsub
          exact (is_well_defined_meta_iff s1 category id).mpr (hsub hmem)
      · by_cases h3 : is_record_subfield_in_header id range = true
        · rw [check_meta_loop, if_neg h1, if_neg h2, if_pos h3] at h
          have h5 := ih (add_well_defined_meta s category id) h
          have hwell : is_well_defined_meta s category v = false := by
            rcases Bool.eq_false_or_eq_true (is_well_defined_meta s category v) with ht | hf
            · exfalso
              have hmem := (is_well_defined_meta_iff s category v).mp ht
              have hmem2 : (category, v) ∈ (add_well_defined_meta s category id).well_defined_meta :=
                List.mem_cons_of_mem _ hmem
              have h6 := (is_well_defined_meta_iff _ category v).mpr hmem2
              rw [h5.2.2.2.2.1] at h6
              exact Bool.false_ne_true h6
            · exact hf
          refine ⟨h5.1, h5.2.1, ?_, h5.2.2.2.1, hwell, ?_⟩
          · exact h5.2.2.1
          · rw [check_meta_loop, if_neg h1, if_pos ?_]
            · exact h5.2.2.2.2.2
            · have hmem : (category, id) ∈ (add_well_defined_meta s category id).well_defined_meta :=
                List.mem_cons_self _ _
              have hsub := (check_meta_loop_state category column skip msg range rest
                (add_well_defined_meta s category id)).1
              rw [h] at hsub
              exact (is_well_defined_meta_iff s1 category id).mpr (hsub hmem)
        · rw [check_meta_loop, if_neg h1, if_neg h2, if_neg h3] at h
          injection h with hs1 hsnd
          injection hsnd with hsnd
          injection hsnd with hn hm hc hv
          subst hs1; subst hn; subst hm; subst hc; subst hv
          refine ⟨rfl, rfl, rfl, by simpa using h3, by simpa using h2, ?_⟩
          rw [check_meta_loop, if_neg h1, if_neg h2, if_neg h3]

theorem optional_eq_run_checks (s : ParsingState) (r : Record) :
    optional_check_body_entry s r = run_checks body_entry_checks s r := by
  simp only [optional_check_body_entry, body_entry_checks, run_checks]
  repeat' split
  all_goals simp_all

theorem run_checks_append (cs1 cs2 : List (ParsingState → Record → ParsingState × Option Err))
    (s : ParsingState) (r : Record) :
    run_checks (cs1 ++ cs2) s r =
      (match run_checks cs1 s r with
       | (s1, none) => run_checks cs2 s1 r
       | (s1, some e) => (s1, some e)) := by
  induction cs1 generalizing s with
  | nil => simp [run_checks]
  | cons c cs ih =>
    rw [List.cons_append, run_checks, run_checks]
    rcases c s r with ⟨s1, e⟩
    cases e with
    | none => exact ih s1
    | some e => rfl

/-- The errors of the sample loop are always `SamplesFieldBodyError`s with
field `"GT"`. -/
theorem ploidy_sample_loop_error (line : Nat) (ploidy i : Nat) (samples : List String)
    (e : Err) (h : ploidy_sample_loop line ploidy i samples = Except.error e) :
    ∃ l msg expected, e = Err.SamplesFieldBodyError l msg "GT" expected := by
  induction samples generalizing ploidy i with
  | nil => simp [ploidy_sample_loop] at h
  | cons sample rest ih =>
    rw [ploidy_sample_loop] at h
    by_cases h1 : ploidy > 0
    · rw [if_pos h1] at h
      by_cases h2 : (string_split ((string_split sample.toList [':']).headD []) ['|', '/']).length ≠ ploidy
      · rw [if_pos h2] at h
        injection h with h
        exact ⟨_, _, _, h.symm⟩
      · rw [if_neg h2] at h
        exact ih _ _ h
    · rw [if_neg h1] at h
      exact ih _ _ h

theorem run_checks_safe (category column id : String)
    (cs : List (ParsingState → Record → ParsingState × Option Err))
    (h : ∀ c ∈ cs, check_safe category column id c) :
    check_safe category column id (fun s r => run_checks cs s r) := by
  induction cs with
  | nil =>
    intro s r hmem
    exact ⟨hmem, fun n m hne => by simp [run_checks] at hne⟩
  | cons c cs ih =>
    intro s r hmem
    have hc := h c (List.mem_cons_self _ _) s r hmem
    have hcs := ih (fun d hd => h d (List.mem_cons_of_mem _ hd))
    simp only [run_checks]
    cases hr : c s r with
    | mk s1 e =>
      rw [hr] at hc
      cases e with
      | none => exact hcs s1 r hc.1
      | some e => exact ⟨hc.1, hc.2⟩

/-- `check_body_entry_ploidy` leaves the state untouched and only ever
throws a `SamplesFieldBodyError` with field `"GT"`. -/
theorem check_body_entry_ploidy_shape (s : ParsingState) (r : Record) :
    (check_body_entry_ploidy s r).1 = s ∧
    ((check_body_entry_ploidy s r).2 = none ∨
      ∃ l msg expected, (check_body_entry_ploidy s r).2 =
        some (Err.SamplesFieldBodyError l msg "GT" expected)) := by
  rw [check_body_entry_ploidy]
  by_cases h1 : r.format.head? = some "GT"
  · rw [if_pos h1]
    cases h2 : ploidy_sample_loop s.n_lines 0 1 r.samples with
    | error e =>
      obtain ⟨l, msg, expected, he⟩ := ploidy_sample_loop_error _ _ _ _ _ h2
      exact ⟨rfl, Or.inr ⟨l, msg, expected, by rw [he]⟩⟩
    | ok ploidy =>
      dsimp only
      split
      · exact ⟨rfl, Or.inr ⟨_, _, _, rfl⟩⟩
      · exact ⟨rfl, Or.inl rfl⟩
  · rw [if_neg h1]
    exact ⟨rfl, Or.inl rfl⟩

theorem check_body_entry_ploidy_safe (category column id : String) :
    check_safe category column id check_body_entry_ploidy := by
  intro s r hmem
  obtain ⟨h1, h2⟩ := check_body_entry_ploidy_shape s r
  refine ⟨by rw [h1]; exact hmem, fun n m hne => ?_⟩
  rcases h2 with h2 | ⟨l, msg, expected, h2⟩ <;> rw [h2] at hne <;> simp at hne

theorem check_body_entry_position_zero_safe (category column id : String) :
    check_safe category column id check_body_entry_position_zero := by
  intro s r hmem
  rw [check_body_entry_position_zero]
  by_cases h1 : r.position = 0
  · rw [if_pos h1]; exact ⟨hmem, fun n m hne => by simp at hne⟩
  · rw [if_neg h1]; exact ⟨hmem, fun n m hne => by simp at hne⟩

theorem check_body_entry_id_commas_safe (category column id : String) :
    check_safe category column id check_body_entry_id_commas := by
  intro s r hmem
  rw [check_body_entry_id_commas]
  cases hf : r.ids.find? (fun i => i.toList.contains ',') with
  | none => exact ⟨hmem, fun n m hne => by simp at hne⟩
  | some i => exact ⟨hmem, fun n m hne => by simp at hne⟩

theorem check_body_entry_reference_alternate_matching_safe (category column id : String) :
    check_safe category column id check_body_entry_reference_alternate_matching := by
  intro s r hmem
  rw [check_body_entry_reference_alternate_matching]
  cases hf : (r.alternate_alleles.zip r.types).find?
      (fun p => p.2 == RecordType.INDEL && str_head p.1 != str_head r.reference_allele) with
  | none => exact ⟨hmem, fun n m hne => by simp at hne⟩
  | some p => exact ⟨hmem, fun n m hne => by simp at hne⟩

/-- The generic loop is safe for its own category (the memoized pair is
short-circuited) and for any pair whose column differs from its own. -/
theorem check_meta_loop_safe (category column id : String)
    (category2 column2 : String) (skip : String → Bool) (msg : String → String)
    (hcase : (category2 = category ∧ column2 = column) ∨ column2 ≠ column)
    (range : List MetaEntry) (ids : List String) (s : ParsingState)
    (hmem : (category, id) ∈ s.well_defined_meta) :
    (category, id) ∈ (check_meta_loop category2 column2 skip msg range s ids).1.well_defined_meta ∧
    ∀ n m, (check_meta_loop category2 column2 skip msg range s ids).2 ≠
      some (Err.NoMetaDefinitionError n m column id) := by
  constructor
  · exact (check_meta_loop_state category2 column2 skip msg range ids s).1 hmem
  · intro n m hne
    rcases hr : check_meta_loop category2 column2 skip msg range s ids with ⟨s1, e⟩
    rw [hr] at hne
    simp only at hne
    rw [hne] at hr
    obtain ⟨hc, _, _, _, hwd, _⟩ := check_meta_loop_error _ _ _ _ _ _ _ _ _ _ _ _ hr
    rcases hcase with ⟨hcat, hcol⟩ | hcol
    · subst hcat
      rw [(is_well_defined_meta_iff s category2 id).mpr hmem] at hwd
      exact Bool.false_ne_true hwd.symm
    · exact hcol hc.symm

theorem check_contig_meta_safe (category column id : String)
    (hcase : (category = "contig" ∧ column = "CHROM") ∨ column ≠ "CHROM") :
    check_safe category column id check_contig_meta := by
  intro s r hmem
  rw [check_contig_meta]
  exact check_meta_loop_safe category column id _ _ _ _
    (by rcases hcase with ⟨h1, h2⟩ | h1
        · exact Or.inl ⟨h1.symm, h2.symm⟩
        · exact Or.inr h1.symm) _ _ s hmem

theorem check_alternate_allele_meta_safe (category column id : String)
    (hcase : (category = "ALT" ∧ column = "ALT") ∨ column ≠ "ALT") :
    check_safe category column id check_alternate_allele_meta := by
  intro s r hmem
  rw [check_alternate_allele_meta]
  exact check_meta_loop_safe category column id _ _ _ _
    (by rcases hcase with ⟨h1, h2⟩ | h1
        · exact Or.inl ⟨h1.symm, h2.symm⟩
        · exact Or.inr h1.symm) _ _ s hmem

theorem check_filter_meta_safe (category column id : String)
    (hcase : (category = "FILTER" ∧ column = "FILTER") ∨ column ≠ "FILTER") :
    check_safe category column id check_filter_meta := by
  intro s r hmem
  rw [check_filter_meta]
  exact check_meta_loop_safe category column id _ _ _ _
    (by rcases hcase with ⟨h1, h2⟩ | h1
        · exact Or.inl ⟨h1.symm, h2.symm⟩
        · exact Or.inr h1.symm) _ _ s hmem

theorem check_info_meta_safe (category column id : String)
    (hcase : (category = "INFO" ∧ column = "INFO") ∨ column ≠ "INFO") :
    check_safe category column id check_info_meta := by
  intro s r hmem
  rw [check_info_meta]
  exact check_meta_loop_safe category column id _ _ _ _
    (by rcases hcase with ⟨h1, h2⟩ | h1
        · exact Or.inl ⟨h1.symm, h2.symm⟩
        · exact Or.inr h1.symm) _ _ s hmem

theorem check_format_meta_safe (category column id : String)
    (hcase : (category = "FORMAT" ∧ column = "FORMAT") ∨ column ≠ "FORMAT") :
    check_safe category column id check_format_meta := by
  intro s r hmem
  rw [check_format_meta]
  exact check_meta_loop_safe category column id _ _ _ _
    (by rcases hcase with ⟨h1, h2⟩ | h1
        · exact Or.inl ⟨h1.symm, h2.symm⟩
        · exact Or.inr h1.symm) _ _ s hmem

/-- For a category/column pair of the policy's cross-reference table, every
per-record check is safe for every memoized id of that category. -/
theorem body_entry_checks_safe (category column id : String)
    (hcat : (category, column) ∈ meta_categories) :
    ∀ c ∈ body_entry_checks, check_safe category column id c := by
  intro c hc
  simp only [meta_categories, List.mem_cons, List.not_mem_nil, or_false,
    Prod.mk.injEq] at hcat
  simp only [body_entry_checks, List.mem_cons, List.not_mem_nil, or_false] at hc
  rcases hc with h | h | h | h | h | h | h | h | h <;> subst h
  · exact check_body_entry_ploidy_safe category column id
  · exact check_body_entry_position_zero_safe category column id
  · exact check_body_entry_id_commas_safe category column id
  · exact check_body_entry_reference_alternate_matching_safe category column id
  · refine check_contig_meta_safe category column id ?_
    rcases hcat with ⟨h1, h2⟩ | ⟨h1, h2⟩ | ⟨h1, h2⟩ | ⟨h1, h2⟩ | ⟨h1, h2⟩ <;> subst h1 <;> subst h2
    · exact Or.inl ⟨rfl, rfl⟩
    all_goals exact Or.inr (by decide)
  · refine check_alternate_allele_meta_safe category column id ?_
    rcases hcat with ⟨h1, h2⟩ | ⟨h1, h2⟩ | ⟨h1, h2⟩ | ⟨h1, h2⟩ | ⟨h1, h2⟩ <;> subst h1 <;> subst h2
    · exact Or.inr (by decide)
    · exact Or.inl ⟨rfl, rfl⟩
    all_goals exact Or.inr (by decide)
  · refine check_filter_meta_safe category column id ?_
    rcases hcat with ⟨h1, h2⟩ | ⟨h1, h2⟩ | ⟨h1, h2⟩ | ⟨h1, h2⟩ | ⟨h1, h2⟩ <;> subst h1 <;> subst h2
    · exact Or.inr (by decide)
    · exact Or.inr (by decide)
    · exact Or.inl ⟨rfl, rfl⟩
    all_goals exact Or.inr (by decide)
  · refine check_info_meta_safe category column id ?_
    rcases hcat with ⟨h1, h2⟩ | ⟨h1, h2⟩ | ⟨h1, h2⟩ | ⟨h1, h2⟩ | ⟨h1, h2⟩ <;> subst h1 <;> subst h2
    · exact Or.inr (by decide)
    · exact Or.inr (by decide)
    · exact Or.inr (by decide)
    · exact Or.inl ⟨rfl, rfl⟩
    · exact Or.inr (by decide)
  · refine check_format_meta_safe category column id ?_
    rcases hcat with ⟨h1, h2⟩ | ⟨h1, h2⟩ | ⟨h1, h2⟩ | ⟨h1, h2⟩ | ⟨h1, h2⟩ <;> subst h1 <;> subst h2
    · exact Or.inr (by decide)
    · exact Or.inr (by decide)
    · exact Or.inr (by decide)
    · exact Or.inr (by decide)
    · exact Or.inl ⟨rfl, rfl⟩

/-- Claim C6: membership of `well_defined_meta` is monotone within a file.
Once `(category, id)` is recorded well defined — `column` being the
structured field name its diagnostics would carry — the pair stays in the
set across every later record, and no policy run over any sequence of
records emits a `NoMetaDefinitionError` for it again (each cross-reference
check consults `is_well_defined_meta` first and passes the id over when it
answers true). -/
theorem well_defined_meta_monotone (category column id : String)
    (hcat : (category, column) ∈ meta_categories) (records : List Record)
    (s : ParsingState) (hmem : (category, id) ∈ s.well_defined_meta) :
    (category, id) ∈ (run_optional_policy s records).1.well_defined_meta ∧
    ∀ n m, Err.NoMetaDefinitionError n m column id ∉ (run_optional_policy s records).2 := by
  induction records generalizing s with
  | nil => exact ⟨hmem, fun n m hne => by simp [run_optional_policy] at hne⟩
  | cons r rest ih =>
    have hsafe := run_checks_safe category column id body_entry_checks
      (body_entry_checks_safe category column id hcat) s r hmem
    dsimp only at hsafe
    rw [← optional_eq_run_checks] at hsafe
    simp only [run_optional_policy]
    cases hr : optional_check_body_entry s r with
    | mk s1 e =>
      rw [hr] at hsafe
      cases e with
      | none => exact ih s1 hsafe.1
      | some e =>
        obtain ⟨h1, h2⟩ := ih s1 hsafe.1
        refine ⟨h1, fun n m hne => ?_⟩
        rcases List.mem_cons.mp hne with hne | hne
        · exact hsafe.2 n m (by rw [hne])
        · exact h2 n m hne

theorem ploidy_sample_loop_agree (line : Nat) (c : Nat) (samples : List String) :
    0 < c → (∀ x ∈ samples, genotype_allele_count x = c) →
    ∀ i, ploidy_sample_loop line c i samples = Except.ok c := by
  induction samples with
  | nil => intro _ _ i; rfl
  | cons x rest ih =>
    intro hc hall i
    have hx : genotype_allele_count x = c := hall x (List.mem_cons_self _ _)
    rw [genotype_allele_count] at hx
    simp only [ploidy_sample_loop, hx]
    rw [if_pos hc, if_neg (fun h => h rfl)]
    exact ih hc (fun y hy => hall y (List.mem_cons_of_mem _ hy)) (i + 1)

theorem ploidy_sample_loop_mismatch (line : Nat) (c : Nat) (ys : List String)
    (z : String) (zs : List String) :
    0 < c → (∀ y ∈ ys, genotype_allele_count y = c) → genotype_allele_count z ≠ c →
    ∀ i, ploidy_sample_loop line c i (ys ++ z :: zs) =
      Except.error (Err.SamplesFieldBodyError line
        ("Sample #" ++ toString (i + ys.length) ++ " has "
          ++ toString (genotype_allele_count z)
          ++ " allele(s), but " ++ toString c ++ " were found in others")
        "GT" (Int.ofNat c)) := by
  induction ys with
  | nil =>
    intro hc _ hz i
    simp only [List.nil_append, ploidy_sample_loop, List.length_nil, Nat.add_zero]
    rw [if_pos hc, if_pos (by rw [genotype_allele_count] at hz; exact hz)]
    rfl
  | cons y ys ih =>
    intro hc hall hz i
    have hy : genotype_allele_count y = c := hall y (List.mem_cons_self _ _)
    rw [genotype_allele_count] at hy
    simp only [List.cons_append, ploidy_sample_loop, hy]
    rw [if_pos hc, if_neg (fun h => h rfl), List.append_eq]
    rw [ih hc (fun w hw => hall w (List.mem_cons_of_mem _ hw)) hz (i + 1)]
    have harith : i + 1 + ys.length = i + (y :: ys).length := by
      rw [List.length_cons]; omega
    rw [harith]

theorem ploidy_sample_loop_first (line : Nat) (x : String) (rest : List String) :
    ploidy_sample_loop line 0 1 (x :: rest) =
      ploidy_sample_loop line (genotype_allele_count x) 2 rest := by
  simp only [ploidy_sample_loop, genotype_allele_count]
  rw [if_neg (Nat.lt_irrefl 0)]

theorem meta_range_congr (s s1 : ParsingState) (k : String)
    (h : s1.source = s.source) : meta_range s1 k = meta_range s k := by
  rw [meta_range, meta_range, h]

/-! ## Claim theorems -/

/-- Claim C8: `check_body_entry_position_zero` emits `PositionBodyError` with
the telomere message if and only if the record's position is zero, emits
nothing otherwise, never touches the state, and position zero passes the
`Record` constructor — it is rejected only by this semantic check. -/
theorem check_body_entry_position_zero_spec (s : ParsingState) (r : Record) :
    ((check_body_entry_position_zero s r).2 =
        some (Err.PositionBodyError s.n_lines
          "Position zero should only be used to reference a telomere") ↔
      r.position = 0) ∧
    (r.position ≠ 0 → check_body_entry_position_zero s r = (s, none)) ∧
    (check_body_entry_position_zero s r).1 = s ∧
    record_construct_position_check r.position = none := by
  rw [check_body_entry_position_zero, record_construct_position_check]
  by_cases h : r.position = 0
  · rw [if_pos h]
    exact ⟨⟨fun _ => h, fun _ => rfl⟩, fun hne => absurd h hne, rfl, rfl⟩
  · rw [if_neg h]
    exact ⟨⟨fun he => by simp at he, fun he => absurd he h⟩, fun _ => rfl, rfl, rfl⟩

theorem check_body_entry_position_zero_spec_witness :
    (check_body_entry_position_zero w8_state w8_record).2 =
      some (Err.PositionBodyError 3
        "Position zero should only be used to reference a telomere") :=
  (check_body_entry_position_zero_spec w8_state w8_record).1.mpr rfl

/-- Claim C3: `optional_check_meta_section` emits the `MetaSectionError` about
the missing `reference` entry exactly when no meta entry is stored under the
key `"reference"`, and emits nothing when one exists (the check never writes
to the state: it only reads it). -/
theorem optional_check_meta_section_spec (s : ParsingState) :
    (optional_check_meta_section s =
        some (Err.MetaSectionError s.n_lines
          "A valid \x27reference\x27 entry is not listed in the meta section") ↔
      ∀ p ∈ s.source.meta_entries, p.1 ≠ "reference") ∧
    ((∃ p ∈ s.source.meta_entries, p.1 = "reference") →
      optional_check_meta_section s = none) := by
  rw [optional_check_meta_section]
  by_cases h : (s.source.meta_entries.find? (fun p => p.1 == "reference")).isNone
  · rw [if_pos h]
    rw [Option.isNone_iff_eq_none, List.find?_eq_none] at h
    refine ⟨⟨fun _ p hp => by simpa using h p hp, fun _ => rfl⟩, fun hex => ?_⟩
    obtain ⟨p, hp, hpe⟩ := hex
    exact absurd (by simpa using hpe) (h p hp)
  · rw [if_neg h]
    rw [Option.isNone_iff_eq_none, List.find?_eq_none] at h
    push_neg at h
    obtain ⟨p, hp, hpe⟩ := h
    refine ⟨⟨fun he => by simp at he, fun hall => ?_⟩, fun _ => rfl⟩
    exact absurd (by simpa using hpe) (by simpa using hall p hp)

theorem optional_check_meta_section_spec_witness :
    optional_check_meta_section w3_state =
      some (Err.MetaSectionError 5
        "A valid \x27reference\x27 entry is not listed in the meta section") :=
  (optional_check_meta_section_spec w3_state).1.mpr (by decide)

/-- Claim C9: with `GT` first in the format and an empty samples sequence,
the observed ploidy stays `0`, so as long as the configured ploidy for the
record's contig is positive the comparison fails and a
`SamplesFieldBodyError` reporting the configured ploidy as expected value is
emitted even though the record has no sample columns. -/
theorem ploidy_error_on_empty_samples (s : ParsingState) (r : Record)
    (hgt : r.format.head? = some "GT") (hsamp : r.samples = [])
    (hpos : 0 < s.source.ploidy.get_ploidy r.chromosome) :
    check_body_entry_ploidy s r = (s, some (Err.SamplesFieldBodyError s.n_lines
      ("The specified ploidy for contig \"" ++ r.chromosome ++ "\" was "
        ++ toString (s.source.ploidy.get_ploidy r.chromosome)
        ++ ", which doesn\x27t match the genotypes, which show ploidy "
        ++ toString 0)
      "GT" (Int.ofNat (s.source.ploidy.get_ploidy r.chromosome)))) := by
  rw [check_body_entry_ploidy, if_pos hgt, hsamp]
  simp only [ploidy_sample_loop]
  rw [if_pos (Nat.pos_iff_ne_zero.mp hpos)]

theorem ploidy_error_on_empty_samples_witness :
    check_body_entry_ploidy w9_state w9_record =
      (w9_state, some (Err.SamplesFieldBodyError 4
        ("The specified ploidy for contig \"" ++ "chr1" ++ "\" was "
          ++ toString 2
          ++ ", which doesn\x27t match the genotypes, which show ploidy "
          ++ toString 0)
        "GT" (Int.ofNat 2))) :=
  ploidy_error_on_empty_samples w9_state w9_record rfl rfl (by decide)

/-- Claim C10: an alternate allele that begins with `<` but is not a complete
match of the regex `<([a-zA-Z0-9:_]+)>` is passed over by
`check_alternate_allele_meta`: the check behaves exactly as if the allele
were absent from the record — no header lookup, no diagnostic for it. -/
theorem alternate_allele_nonmatching_skipped (s : ParsingState) (r : Record)
    (alt : String) (xs ys : List String)
    (halt : r.alternate_alleles = xs ++ alt :: ys)
    (hlt : str_head alt = '<')
    (hnm : sq_bracket_full_match alt = none) :
    check_alternate_allele_meta s r =
      check_alternate_allele_meta s { r with alternate_alleles := xs ++ ys } := by
  have hid : alt_symbolic_id alt = none := by
    rw [alt_symbolic_id, if_pos (by rw [hlt]; rfl), hnm]
  rw [check_alternate_allele_meta, check_alternate_allele_meta]
  simp only [halt, List.filterMap_append, List.filterMap_cons, hid]

theorem alternate_allele_nonmatching_skipped_witness :
    check_alternate_allele_meta w10_state w10_record =
      check_alternate_allele_meta w10_state { w10_record with alternate_alleles := ["T"] } :=
  alternate_allele_nonmatching_skipped w10_state w10_record "<DEL" ["T"] []
    rfl (by decide) (by decide)

theorem well_defined_meta_monotone_witness :
    ("FILTER", "q10") ∈ (run_optional_policy w6_state [w6_record]).1.well_defined_meta ∧
    ∀ n m, Err.NoMetaDefinitionError n m "FILTER" "q10" ∉
      (run_optional_policy w6_state [w6_record]).2 :=
  well_defined_meta_monotone "FILTER" "FILTER" "q10" (by decide) [w6_record] w6_state
    (by decide)

/-- Claim C1 (counterexample): a record with position zero and a comma inside
an ID violates two of the listed checks, yet running the policy over the
record emits only the position-zero diagnostic — the later ID-comma check,
which fails on its own, contributes nothing, so a failed check does abort
the subsequent checks of the same record. -/
theorem first_failure_masks_later_check :
    (run_optional_policy cex1_state [cex1_record]).2 =
      [Err.PositionBodyError 1 "Position zero should only be used to reference a telomere"] ∧
    (check_body_entry_id_commas cex1_state cex1_record).2 =
      some (Err.IdBodyError 1
        "Comma found in the ID column; if used as separator, please replace it with semi-colon") :=
  ⟨by decide, by decide⟩

/-- Claim C1 (amended): `optional_check_body_entry` applies the nine
per-record checks in the listed order (ploidy, position zero, ID commas,
indel first-nucleotide, contig, ALT, FILTER, INFO, FORMAT declaration),
stopping at the first check that throws: whenever a prefix of the listed
checks already yields a diagnostic, that diagnostic and the state it left
are the whole result — the remaining checks are never run. -/
theorem optional_check_body_entry_in_order (s : ParsingState) (r : Record) :
    optional_check_body_entry s r = run_checks body_entry_checks s r ∧
    ∀ cs1 cs2, body_entry_checks = cs1 ++ cs2 →
      ∀ s1 e, run_checks cs1 s r = (s1, some e) →
        optional_check_body_entry s r = (s1, some e) := by
  refine ⟨optional_eq_run_checks s r, fun cs1 cs2 hsplit s1 e hfail => ?_⟩
  rw [optional_eq_run_checks s r, hsplit, run_checks_append, hfail]

theorem optional_check_body_entry_in_order_witness :
    optional_check_body_entry cex1_state cex1_record =
      (cex1_state, some (Err.PositionBodyError 1
        "Position zero should only be used to reference a telomere")) :=
  (optional_check_body_entry_in_order cex1_state cex1_record).2
    [check_body_entry_ploidy, check_body_entry_position_zero]
    [check_body_entry_id_commas, check_body_entry_reference_alternate_matching,
     check_contig_meta, check_alternate_allele_meta, check_filter_meta,
     check_info_meta, check_format_meta]
    rfl cex1_state
    (Err.PositionBodyError 1 "Position zero should only be used to reference a telomere")
    (by decide)

/-- Claim C2 (counterexample): a FILTER id that is not declared in the header
is reported once per record that references it: a file of two records both
naming the undefined filter `q10` yields the same `NoMetaDefinitionError`
twice, so the policy does not emit at most one such diagnostic per
`(category, id)` per file. -/
theorem undefined_filter_reemitted :
    (run_optional_policy cex2_state [cex2_record, cex2_record]).2 =
      [Err.NoMetaDefinitionError 1
        "Filter \x27q10\x27 is not listed in a valid meta-data FILTER entry" "FILTER" "q10",
       Err.NoMetaDefinitionError 1
        "Filter \x27q10\x27 is not listed in a valid meta-data FILTER entry" "FILTER" "q10"] := by
  decide

/-- Claim C2 (amended): the cross-reference checks short-circuit only ids
previously found well defined.  An id the check reports undefined is not
recorded anywhere: whenever `check_filter_meta` throws a
`NoMetaDefinitionError`, the reported id is absent from the header slice, the
pair is still not memoized afterwards, and re-running the check on the same
record from the resulting state throws the identical diagnostic again. -/
theorem undefined_meta_not_memoized (s s1 : ParsingState) (r : Record)
    (n : Nat) (m c v : String)
    (hrun : check_filter_meta s r = (s1, some (Err.NoMetaDefinitionError n m c v))) :
    is_record_subfield_in_header v (meta_range s "FILTER") = false ∧
    is_well_defined_meta s1 "FILTER" v = false ∧
    check_filter_meta s1 r = (s1, some (Err.NoMetaDefinitionError n m c v)) := by
  rw [check_filter_meta] at hrun
  obtain ⟨hc, hm, hn, hhdr, hwd, hrerun⟩ :=
    check_meta_loop_error _ _ _ _ _ _ _ _ _ _ _ _ hrun
  have hst := (check_meta_loop_state "FILTER" "FILTER"
    (fun f => f == "PASS" || f == ".")
    (fun f => "Filter \x27" ++ f ++ "\x27 is not listed in a valid meta-data FILTER entry")
    (meta_range s "FILTER") r.filters s).2.2
  rw [hrun] at hst
  obtain ⟨_, _, _, _, hwd1, _⟩ :=
    check_meta_loop_error _ _ _ _ _ _ _ _ _ _ _ _ hrerun
  refine ⟨hhdr, hwd1, ?_⟩
  rw [check_filter_meta, meta_range_congr s s1 "FILTER" hst]
  exact hrerun

theorem undefined_meta_not_memoized_witness :
    is_record_subfield_in_header "q10" (meta_range cex2_state "FILTER") = false ∧
    is_well_defined_meta cex2_state "FILTER" "q10" = false ∧
    check_filter_meta cex2_state cex2_record =
      (cex2_state, some (Err.NoMetaDefinitionError 1
        "Filter \x27q10\x27 is not listed in a valid meta-data FILTER entry" "FILTER" "q10")) :=
  undefined_meta_not_memoized cex2_state cex2_state cex2_record 1
    "Filter \x27q10\x27 is not listed in a valid meta-data FILTER entry" "FILTER" "q10"
    (by decide)

/-- Claim C5: the ploidy check of the optional policy.  (i) Without `GT`
first in the format nothing is emitted.  (ii) The first sample's (nonzero)
allele count is the observed ploidy, and the first later sample whose count
differs triggers a `SamplesFieldBodyError` naming that sample, carrying
field `"GT"` and the observed ploidy as expected value.  (iii) When all
samples agree, the observed ploidy is compared with the configured ploidy
for the record's chromosome; a mismatch yields a `SamplesFieldBodyError`
with the configured ploidy as expected value, agreement yields nothing. -/
theorem check_body_entry_ploidy_spec :
    (∀ s r, r.format.head? ≠ some "GT" → check_body_entry_ploidy s r = (s, none)) ∧
    (∀ s r x ys z zs c, r.format.head? = some "GT" →
      r.samples = x :: (ys ++ z :: zs) →
      genotype_allele_count x = c → 0 < c →
      (∀ y ∈ ys, genotype_allele_count y = c) →
      genotype_allele_count z ≠ c →
      check_body_entry_ploidy s r = (s, some (Err.SamplesFieldBodyError s.n_lines
        ("Sample #" ++ toString (2 + ys.length) ++ " has "
          ++ toString (genotype_allele_count z)
          ++ " allele(s), but " ++ toString c ++ " were found in others")
        "GT" (Int.ofNat c)))) ∧
    (∀ s r x ys c, r.format.head? = some "GT" →
      r.samples = x :: ys →
      genotype_allele_count x = c → 0 < c →
      (∀ y ∈ ys, genotype_allele_count y = c) →
      ((s.source.ploidy.get_ploidy r.chromosome ≠ c →
        check_body_entry_ploidy s r = (s, some (Err.SamplesFieldBodyError s.n_lines
          ("The specified ploidy for contig \"" ++ r.chromosome ++ "\" was "
            ++ toString (s.source.ploidy.get_ploidy r.chromosome)
            ++ ", which doesn\x27t match the genotypes, which show ploidy "
            ++ toString c)
          "GT" (Int.ofNat (s.source.ploidy.get_ploidy r.chromosome))))) ∧
       (s.source.ploidy.get_ploidy r.chromosome = c →
        check_body_entry_ploidy s r = (s, none)))) := by
  refine ⟨?_, ?_, ?_⟩
  · intro s r h
    rw [check_body_entry_ploidy, if_neg h]
  · intro s r x ys z zs c hgt hsamp hcx hc hys hz
    rw [check_body_entry_ploidy, if_pos hgt, hsamp, ploidy_sample_loop_first, hcx,
      ploidy_sample_loop_mismatch s.n_lines c ys z zs hc hys hz 2]
  · intro s r x ys c hgt hsamp hcx hc hys
    rw [check_body_entry_ploidy, if_pos hgt, hsamp, ploidy_sample_loop_first, hcx,
      ploidy_sample_loop_agree s.n_lines c ys hc hys 2]
    dsimp only
    refine ⟨fun hne => ?_, fun heq => ?_⟩
    · rw [if_pos hne]
    · rw [if_neg (not_not_intro heq)]

theorem check_body_entry_ploidy_spec_witness :
    check_body_entry_ploidy w5_state w5_record =
      (w5_state, some (Err.SamplesFieldBodyError 7
        ("Sample #" ++ toString (2 + List.length ([] : List String)) ++ " has "
          ++ toString (genotype_allele_count "0|1|1")
          ++ " allele(s), but " ++ toString 2 ++ " were found in others")
        "GT" (Int.ofNat 2))) :=
  check_body_entry_ploidy_spec.2.1 w5_state w5_record "0|1" [] "0|1|1" [] 2
    rfl rfl (by decide) (by decide) (by decide) (by decide)

theorem alt_pfx_cond (p : String) :
    (p != "DEL" && p != "INS" && p != "DUP" && p != "INV" && p != "CNV") = false ↔
      p ∈ (["DEL", "INS", "DUP", "INV", "CNV"] : List String) := by
  constructor
  · intro h
    by_contra hn
    simp only [List.mem_cons, List.not_mem_nil, or_false, not_or] at hn
    obtain ⟨h1, h2, h3, h4, h5⟩ := hn
    simp [bne_iff_ne, h1, h2, h3, h4, h5] at h
  · intro h
    simp only [List.mem_cons, List.not_mem_nil, or_false] at h
    rcases h with h | h | h | h | h <;> subst h <;> decide

theorem check_alt_none_iff (line : Nat) (kv : List (String × String)) :
    check_alt line kv = none ↔
      hasKey kv "ID" = true ∧ hasKey kv "Description" = true ∧
        alt_id_pfx kv ∈ (["DEL", "INS", "DUP", "INV", "CNV"] : List String) := by
  rw [check_alt]
  cases hID : hasKey kv "ID" with
  | false => simp
  | true =>
    cases hD : hasKey kv "Description" with
    | false => simp
    | true =>
      rw [if_neg (by decide), if_neg (by decide)]
      dsimp only
      by_cases hp : alt_id_pfx kv ∈ (["DEL", "INS", "DUP", "INV", "CNV"] : List String)
      · rw [if_neg (by rw [(alt_pfx_cond (alt_id_pfx kv)).mpr hp]; exact Bool.false_ne_true)]
        simp [hp]
      · have hcond : (alt_id_pfx kv != "DEL" && alt_id_pfx kv != "INS"
            && alt_id_pfx kv != "DUP" && alt_id_pfx kv != "INV"
            && alt_id_pfx kv != "CNV") = true := by
          rcases Bool.eq_false_or_eq_true (alt_id_pfx kv != "DEL" && alt_id_pfx kv != "INS"
            && alt_id_pfx kv != "DUP" && alt_id_pfx kv != "INV"
            && alt_id_pfx kv != "CNV") with ht | hf
          · exact ht
          · exact absurd ((alt_pfx_cond (alt_id_pfx kv)).mp hf) hp
        rw [if_pos hcond]
        simp [hp]

theorem check_alt_error_shape (line : Nat) (kv : List (String × String)) (e : Err)
    (h : check_alt line kv = some e) : ∃ emsg, e = Err.MetaSectionError line emsg := by
  rw [check_alt] at h
  split at h
  · injection h with h; exact ⟨_, h.symm⟩
  · split at h
    · injection h with h; exact ⟨_, h.symm⟩
    · dsimp only at h
      split at h
      · injection h with h; exact ⟨_, h.symm⟩
      · cases h

/-- Claim C7: a KeyValue MetaEntry with id `ALT` constructs successfully
exactly when the map has keys `ID` and `Description` and the prefix of
`value[ID]` before the first colon (the whole string when no colon occurs)
is one of DEL, INS, DUP, INV, CNV; every violation is a `MetaSectionError`
carrying the entry's line; and the key-presence checks run before the
prefix check — a missing key is reported even when the prefix is also bad. -/
theorem meta_entry_alt_construction_spec (line : Nat) (version : Version)
    (t1 t2 t3 t4 : List (String × (String × String))) (kv : List (String × String)) :
    ((∃ m, MetaEntry.construct line "ALT" version t1 t2 t3 t4 (MetaValue.KeyValue kv) =
        Except.ok m) ↔
      (hasKey kv "ID" = true ∧ hasKey kv "Description" = true ∧
        alt_id_pfx kv ∈ (["DEL", "INS", "DUP", "INV", "CNV"] : List String))) ∧
    (∀ e, MetaEntry.construct line "ALT" version t1 t2 t3 t4 (MetaValue.KeyValue kv) =
        Except.error e → ∃ emsg, e = Err.MetaSectionError line emsg) ∧
    (hasKey kv "ID" = false →
      check_alt line kv =
        some (Err.MetaSectionError line
          "ALT metadata does not contain a field called \x27ID\x27")) ∧
    (hasKey kv "ID" = true → hasKey kv "Description" = false →
      check_alt line kv =
        some (Err.MetaSectionError line
          "ALT metadata does not contain a field called \x27Description\x27")) := by
  have hcv : check_value line "ALT" version t1 t2 t3 t4 (MetaValue.KeyValue kv) =
      check_alt line kv := by
    rw [check_value]
    simp
  refine ⟨⟨?_, ?_⟩, ?_, ?_, ?_⟩
  · intro hok
    obtain ⟨m, hm⟩ := hok
    rw [MetaEntry.construct, hcv] at hm
    cases hca : check_alt line kv with
    | some e => rw [hca] at hm; exact absurd hm (by simp)
    | none => exact (check_alt_none_iff line kv).mp hca
  · intro hcond
    refine ⟨⟨line, "ALT", MetaValue.KeyValue kv⟩, ?_⟩
    rw [MetaEntry.construct, hcv, (check_alt_none_iff line kv).mpr hcond]
  · intro e he
    rw [MetaEntry.construct, hcv] at he
    cases hca : check_alt line kv with
    | none => rw [hca] at he; exact absurd he (by simp)
    | some e2 =>
      rw [hca] at he
      have he2 : e2 = e := by injection he
      subst he2
      exact check_alt_error_shape line kv e2 hca
  · intro hID
    rw [check_alt, if_pos (by rw [hID]; rfl)]
  · intro hID hD
    rw [check_alt, if_neg (by rw [hID]; simp), if_pos (by rw [hD]; rfl)]

theorem meta_entry_alt_construction_spec_witness :
    ∃ m, MetaEntry.construct 3 "ALT" Version.v41 [] [] [] []
      (MetaValue.KeyValue [("ID", "DEL:ME"), ("Description", "x")]) = Except.ok m :=
  (meta_entry_alt_construction_spec 3 Version.v41 [] [] [] []
    [("ID", "DEL:ME"), ("Description", "x")]).1.mpr (by decide)

/-- The behaviour of the pair of `check_predefined_tag` calls that
`check_format` and `check_info` issue after their shape checks (the `Type`
cell first, then the `Number` cell, against the same table `tags`). -/
theorem predefined_pair_spec (line : Nat) (tag_field : String)
    (value : List (String × String)) (tags : List (String × (String × String))) :
    (tags.find? (fun t => t.1 == mapGet value "ID") = none →
      (match check_predefined_tag line tag_field "Type" value tags with
       | some e => some e
       | none => check_predefined_tag line tag_field "Number" value tags) = none) ∧
    (∀ i ty num, tags.find? (fun t => t.1 == mapGet value "ID") = some (i, (ty, num)) →
      (((match check_predefined_tag line tag_field "Type" value tags with
         | some e => some e
         | none => check_predefined_tag line tag_field "Number" value tags) = none ↔
        ((ty = "." ∨ ty = mapGet value "Type") ∧
         (num = "." ∨ num = mapGet value "Number"))) ∧
       (ty ≠ "." → ty ≠ mapGet value "Type" →
        (match check_predefined_tag line tag_field "Type" value tags with
         | some e => some e
         | none => check_predefined_tag line tag_field "Number" value tags) =
          some (Err.MetaSectionError line
            (tag_field ++ " " ++ mapGet value "ID" ++ " metadata " ++ "Type"
              ++ " is not " ++ ty))) ∧
       ((ty = "." ∨ ty = mapGet value "Type") → num ≠ "." → num ≠ mapGet value "Number" →
        (match check_predefined_tag line tag_field "Type" value tags with
         | some e => some e
         | none => check_predefined_tag line tag_field "Number" value tags) =
          some (Err.MetaSectionError line
            (tag_field ++ " " ++ mapGet value "ID" ++ " metadata " ++ "Number"
              ++ " is not " ++ num))))) := by
  refine ⟨?_, ?_⟩
  · intro hfind
    rw [check_predefined_tag, hfind, check_predefined_tag, hfind]
  · intro i ty num hfind
    have hTyEq : check_predefined_tag line tag_field "Type" value tags =
      (if ty != "." && ty != mapGet value "Type" then
        some (Err.MetaSectionError line
          (tag_field ++ " " ++ mapGet value "ID" ++ " metadata " ++ "Type"
            ++ " is not " ++ ty))
      else none) := by
      rw [check_predefined_tag, hfind]; rfl
    have hNumEq : check_predefined_tag line tag_field "Number" value tags =
      (if num != "." && num != mapGet value "Number" then
        some (Err.MetaSectionError line
          (tag_field ++ " " ++ mapGet value "ID" ++ " metadata " ++ "Number"
            ++ " is not " ++ num))
      else none) := by
      rw [check_predefined_tag, hfind]; rfl
    refine ⟨?_, ?_, ?_⟩
    · rw [hTyEq, hNumEq]
      by_cases cTy : (ty != "." && ty != mapGet value "Type") = true
      · rw [if_pos cTy]
        simp only [Bool.and_eq_true, bne_iff_ne] at cTy
        constructor
        · intro hcontra; exact absurd hcontra (by simp)
        · intro hcond
          rcases hcond.1 with h | h
          · exact absurd h cTy.1
          · exact absurd h cTy.2
      · rw [if_neg cTy]
        have hty : ty = "." ∨ ty = mapGet value "Type" := by
          by_contra hn
          push_neg at hn
          exact cTy (by simp [bne_iff_ne, hn.1, hn.2])
        by_cases cNum : (num != "." && num != mapGet value "Number") = true
        · rw [if_pos cNum]
          simp only [Bool.and_eq_true, bne_iff_ne] at cNum
          constructor
          · intro hcontra; exact absurd hcontra (by simp)
          · intro hcond
            rcases hcond.2 with h | h
            · exact absurd h cNum.1
            · exact absurd h cNum.2
        · rw [if_neg cNum]
          exact ⟨fun _ => ⟨hty, by
            by_contra hn
            push_neg at hn
            exact cNum (by simp [bne_iff_ne, hn.1, hn.2])⟩, fun _ => rfl⟩
    · intro h1 h2
      rw [hTyEq, if_pos (by simp [bne_iff_ne, h1, h2])]
    · intro hty h1 h2
      rw [hTyEq, hNumEq,
        if_neg (by rcases hty with h | h <;> simp [bne_iff_ne, h]),
        if_pos (by simp [bne_iff_ne, h1, h2])]

/-- Claim C4 (amended): for a KeyValue MetaEntry with id FORMAT or INFO
whose shape checks pass, the predefined-tag check consults the table
selected by the version group (v4.1/v4.2 share one table, v4.3 has its
own) at `value[ID]`.  An id absent from the table emits nothing.  For a
present id with expected cells `(ty, num)`, construction passes iff each
checked cell (`Type` first, then `Number`) is `"."` or equals the entry's
value, and a violated cell emits `MetaSectionError` with message
`<tag> <id> metadata <key_field> is not <expected>`; matching the `Type`
cell alone does not suffice, the `Number` cell is checked as well. -/
theorem check_format_info_predefined_spec :
    (∀ line version fmt_v41_v42 fmt_v43 (value : List (String × String)),
      hasKey value "ID" = true → hasKey value "Number" = true →
      hasKey value "Type" = true → hasKey value "Description" = true →
      (!((mapGet value "Number").toList.all Char.isDigit)
        && mapGet value "Number" != "A" && mapGet value "Number" != "R"
        && mapGet value "Number" != "G" && mapGet value "Number" != ".") = false →
      (mapGet value "Type" != "Integer" && mapGet value "Type" != "Float"
        && mapGet value "Type" != "Character" && mapGet value "Type" != "String") = false →
      ((predefined_format_tags Version.v41 fmt_v41_v42 fmt_v43 = fmt_v41_v42 ∧
        predefined_format_tags Version.v42 fmt_v41_v42 fmt_v43 = fmt_v41_v42 ∧
        predefined_format_tags Version.v43 fmt_v41_v42 fmt_v43 = fmt_v43) ∧
       ((predefined_format_tags version fmt_v41_v42 fmt_v43).find?
           (fun t => t.1 == mapGet value "ID") = none →
         check_format line version fmt_v41_v42 fmt_v43 value = none) ∧
       (∀ i ty num, (predefined_format_tags version fmt_v41_v42 fmt_v43).find?
           (fun t => t.1 == mapGet value "ID") = some (i, (ty, num)) →
         ((check_format line version fmt_v41_v42 fmt_v43 value = none ↔
           ((ty = "." ∨ ty = mapGet value "Type") ∧
            (num = "." ∨ num = mapGet value "Number"))) ∧
          (ty ≠ "." → ty ≠ mapGet value "Type" →
           check_format line version fmt_v41_v42 fmt_v43 value =
             some (Err.MetaSectionError line
               ("FORMAT" ++ " " ++ mapGet value "ID" ++ " metadata " ++ "Type"
                 ++ " is not " ++ ty))) ∧
          ((ty = "." ∨ ty = mapGet value "Type") → num ≠ "." → num ≠ mapGet value "Number" →
           check_format line version fmt_v41_v42 fmt_v43 value =
             some (Err.MetaSectionError line
               ("FORMAT" ++ " " ++ mapGet value "ID" ++ " metadata " ++ "Number"
                 ++ " is not " ++ num))))))) ∧
    (∀ line version info_v41_v42 info_v43 (value : List (String × String)),
      hasKey value "ID" = true → hasKey value "Number" = true →
      hasKey value "Type" = true → hasKey value "Description" = true →
      (!((mapGet value "Number").toList.all Char.isDigit)
        && mapGet value "Number" != "A" && mapGet value "Number" != "R"
        && mapGet value "Number" != "G" && mapGet value "Number" != ".") = false →
      (mapGet value "Type" != "Integer" && mapGet value "Type" != "Float"
        && mapGet value "Type" != "Flag" && mapGet value "Type" != "Character"
        && mapGet value "Type" != "String") = false →
      (((predefined_format_tags version info_v41_v42 info_v43).find?
           (fun t => t.1 == mapGet value "ID") = none →
         check_info line version info_v41_v42 info_v43 value = none) ∧
       (∀ i ty num, (predefined_format_tags version info_v41_v42 info_v43).find?
           (fun t => t.1 == mapGet value "ID") = some (i, (ty, num)) →
         ((check_info line version info_v41_v42 info_v43 value = none ↔
           ((ty = "." ∨ ty = mapGet value "Type") ∧
            (num = "." ∨ num = mapGet value "Number"))) ∧
          (ty ≠ "." → ty ≠ mapGet value "Type" →
           check_info line version info_v41_v42 info_v43 value =
             some (Err.MetaSectionError line
               ("INFO" ++ " " ++ mapGet value "ID" ++ " metadata " ++ "Type"
                 ++ " is not " ++ ty))) ∧
          ((ty = "." ∨ ty = mapGet value "Type") → num ≠ "." → num ≠ mapGet value "Number" →
           check_info line version info_v41_v42 info_v43 value =
             some (Err.MetaSectionError line
               ("INFO" ++ " " ++ mapGet value "ID" ++ " metadata " ++ "Number"
                 ++ " is not " ++ num))))))) := by
  constructor
  · intro line version fmt_v41_v42 fmt_v43 value hID hNum hTy hDesc hNumOk hTyOk
    have hred : check_format line version fmt_v41_v42 fmt_v43 value =
        (match check_predefined_tag line "FORMAT" "Type" value
            (predefined_format_tags version fmt_v41_v42 fmt_v43) with
         | some e => some e
         | none => check_predefined_tag line "FORMAT" "Number" value
            (predefined_format_tags version fmt_v41_v42 fmt_v43)) := by
      rw [check_format, predefined_format_tags]
      rw [if_neg (by simp [hID]), if_neg (by simp [hNum]), if_neg (by simp [hTy]),
        if_neg (by simp [hDesc])]
      dsimp only
      rw [if_neg (by rw [hNumOk]; exact Bool.false_ne_true),
        if_neg (by rw [hTyOk]; exact Bool.false_ne_true)]
    obtain ⟨habs, hpres⟩ := predefined_pair_spec line "FORMAT" value
      (predefined_format_tags version fmt_v41_v42 fmt_v43)
    refine ⟨⟨rfl, rfl, rfl⟩, ?_, ?_⟩
    · intro hfind
      rw [hred]; exact habs hfind
    · intro i ty num hfind
      obtain ⟨h1, h2, h3⟩ := hpres i ty num hfind
      refine ⟨?_, ?_, ?_⟩
      · rw [hred]; exact h1
      · intro a b; rw [hred]; exact h2 a b
      · intro a b c; rw [hred]; exact h3 a b c
  · intro line version info_v41_v42 info_v43 value hID hNum hTy hDesc hNumOk hTyOk
    have hred : check_info line version info_v41_v42 info_v43 value =
        (match check_predefined_tag line "INFO" "Type" value
            (predefined_format_tags version info_v41_v42 info_v43) with
         | some e => some e
         | none => check_predefined_tag line "INFO" "Number" value
            (predefined_format_tags version info_v41_v42 info_v43)) := by
      rw [check_info, predefined_format_tags]
      rw [if_neg (by simp [hID]), if_neg (by simp [hNum]), if_neg (by simp [hTy]),
        if_neg (by simp [hDesc])]
      dsimp only
      rw [if_neg (by rw [hNumOk]; exact Bool.false_ne_true),
        if_neg (by rw [hTyOk]; exact Bool.false_ne_true)]
    obtain ⟨habs, hpres⟩ := predefined_pair_spec line "INFO" value
      (predefined_format_tags version info_v41_v42 info_v43)
    refine ⟨?_, ?_⟩
    · intro hfind
      rw [hred]; exact habs hfind
    · intro i ty num hfind
      obtain ⟨h1, h2, h3⟩ := hpres i ty num hfind
      refine ⟨?_, ?_, ?_⟩
      · rw [hred]; exact h1
      · intro a b; rw [hred]; exact h2 a b
      · intro a b c; rw [hred]; exact h3 a b c

/-- Claim C4 (counterexample): with a v4.1 table constraining GT to Type
String and Number 1, an entry whose `Type` matches the table still fails to
construct under v4.1: the predefined check also constrains `Number`, so a
matching `Type` alone does not guarantee error-free construction. -/
theorem format_type_match_still_errors :
    check_predefined_tag 1 "FORMAT" "Type" cex4_value [("GT", ("String", "1"))] = none ∧
    check_format 1 Version.v41 [("GT", ("String", "1"))] [] cex4_value =
      some (Err.MetaSectionError 1 "FORMAT GT metadata Number is not 1") ∧
    MetaEntry.construct 1 "FORMAT" Version.v41 [("GT", ("String", "1"))] [] [] []
      (MetaValue.KeyValue cex4_value) =
      Except.error (Err.MetaSectionError 1 "FORMAT GT metadata Number is not 1") :=
  ⟨by decide, by decide, by rfl⟩

theorem check_format_info_predefined_spec_witness :
    check_format 2 Version.v41 [("GT", ("String", "1"))] [] w4_value = none ∧
    check_info 2 Version.v43 [] [("AA", ("String", "1"))] w4info_value = none :=
  ⟨(((check_format_info_predefined_spec.1 2 Version.v41 [("GT", ("String", "1"))] []
        w4_value (by decide) (by decide) (by decide) (by decide) (by decide)
        (by decide)).2.2 "GT" "String" "1" (by decide)).1).mpr (by decide),
   (((check_format_info_predefined_spec.2 2 Version.v43 [] [("AA", ("String", "1"))]
        w4info_value (by decide) (by decide) (by decide) (by decide) (by decide)
        (by decide)).2 "AA" "String" "1" (by decide)).1).mpr (by decide)⟩

end VcfValidator
